import Mathlib

/- Shallow embedding of src/Acos.py, the A10 health-check client for AxAPI v3.0.
   Python values are modelled by PVal, raised exceptions by Except PyErr or by
   explicit outcome types, and the HTTP transport by a function parameter that
   maps the request actually issued to either a transport error or a response. -/

/-- Model of a Python value (JSON-decoded data, strings, dicts) as handled by Acos.py. -/
inductive PVal where
  | str : String → PVal
  | num : Int → PVal
  | list : List PVal → PVal
  | dict : List (String × PVal) → PVal
  | null : PVal

/-- Python exceptions that the code under study can raise or catch. -/
inductive PyErr where
  | typeError : PyErr
  | keyError : PyErr
  | nameError : PyErr
  deriving DecidableEq

/-- Association lookup on a Python dict modelled as a key-value list. -/
def lookupKey {α : Type} : List (String × α) → String → Option α
  | [], _ => Option.none
  | (k, v) :: rest, key => if k = key then some v else lookupKey rest key

/-- Python dict assignment d[key] = v: replace the binding in place if the key
    is present, otherwise append it, preserving insertion order. -/
def setKey {α : Type} : List (String × α) → String → α → List (String × α)
  | [], key, v => [(key, v)]
  | (k, w) :: rest, key, v =>
      if k = key then (key, v) :: rest else (k, w) :: setKey rest key v

/-- Python subscript x[key] with a string key: a dict lookup raises KeyError when
    the key is missing; subscripting any non-dict value with a string raises TypeError. -/
def getItem : PVal → String → Except PyErr PVal
  | PVal.dict es, key =>
      match lookupKey es key with
      | some v => Except.ok v
      | Option.none => Except.error PyErr.keyError
  | _, _ => Except.error PyErr.typeError

/-- Chained subscripts x[k1][k2]...: the first failure propagates. -/
def getPath : PVal → List String → Except PyErr PVal
  | v, [] => Except.ok v
  | v, k :: ks =>
      match getItem v k with
      | Except.ok w => getPath w ks
      | Except.error e => Except.error e

/-- Python iteration (for x in v): lists yield their elements, strings yield their
    characters as one-character strings, dicts yield their keys; other values raise
    TypeError. -/
def iterPy : PVal → Except PyErr (List PVal)
  | PVal.list xs => Except.ok xs
  | PVal.str s => Except.ok (s.data.map (fun c => PVal.str (String.mk [c])))
  | PVal.dict es => Except.ok (es.map (fun p => PVal.str p.1))
  | _ => Except.error PyErr.typeError

/-- An HTTP response as seen through the requests library: status code and body text. -/
structure Response where
  status_code : Nat
  content : String

/-- Transport-level failures of requests.get and requests.post: requests.ConnectionError,
    or any other exception raised while sending. -/
inductive TransErr where
  | connectionError : TransErr
  | otherError : TransErr
  deriving DecidableEq

/-- The one HTTP request a call issues: url, method, and the JSON body sent for POST. -/
structure Request where
  url : String
  method : String
  body : Option PVal

/-- Outcome of axapi_call: a returned value, process termination via exit(code)
    which raises SystemExit, or an uncaught Python exception. -/
inductive CallOutcome where
  | ok : PVal → CallOutcome
  | sysExit : Nat → CallOutcome
  | raised : PyErr → CallOutcome

/-- The no-content sentinel built at Acos.py line 119. -/
def sentinel204 : PVal := PVal.dict [("HTTP RESPONSE CODE", PVal.str "HTTP 204")]

/-- Acos.py lines 113 to 121: try json.loads on the body; on ValueError return the
    empty string for an empty 200 body, the sentinel for 204, and otherwise the raw
    body wrapped under the key "command output". The JSON decoder is a parameter;
    json.loads of an undecodable body is decode returning none (json.loads of the
    empty string also raises ValueError, so an empty body always reaches the
    except branch). -/
def axapi_decode_body (decode : String → Option PVal) (status : Nat) (content : String) : PVal :=
  match decode content with
  | some v => v
  | Option.none =>
      if status = 200 ∧ content = "" then PVal.str ""
      else if status = 204 then sentinel204
      else PVal.dict [("command output", PVal.str content)]

/-- The request axapi_call issues: url is base_url plus module; only POST carries
    the JSON-encoded payload (requests.get is called without data). -/
def axapi_request (base module method : String) (payload : PVal) : Request :=
  { url := base ++ module, method := method,
    body := if method = "POST" then some payload else Option.none }

/-- Acos.py lines 81 to 124, axapi_call. The dev parameter stands for the device:
    it maps the issued request to a transport error or a response. A transport
    error in either branch is logged and followed by exit(1). If method is neither
    GET nor POST, the local r is never bound and line 114 raises NameError. The
    second component records the requests actually issued (exactly one for GET or
    POST, none otherwise). -/
def axapi_call (decode : String → Option PVal) (base module method : String) (payload : PVal)
    (dev : Request → Except TransErr Response) : CallOutcome × List Request :=
  if method = "GET" then
    let req := axapi_request base module "GET" payload
    match dev req with
    | Except.error _ => (CallOutcome.sysExit 1, [req])
    | Except.ok r => (CallOutcome.ok (axapi_decode_body decode r.status_code r.content), [req])
  else if method = "POST" then
    let req := axapi_request base module "POST" payload
    match dev req with
    | Except.error _ => (CallOutcome.sysExit 1, [req])
    | Except.ok r => (CallOutcome.ok (axapi_decode_body decode r.status_code r.content), [req])
  else
    (CallOutcome.raised PyErr.nameError, [])

/-- Acos.py line 126 to 132, clideploy: a single POST to the clideploy module with
    payload a dict binding "CommandList" to the command list; the result of the
    generic call is returned unchanged. -/
def clideploy (decode : String → Option PVal) (base : String) (commands : List String)
    (dev : Request → Except TransErr Response) : CallOutcome × List Request :=
  axapi_call decode base "clideploy" "POST"
    (PVal.dict [("CommandList", PVal.list (commands.map PVal.str))]) dev

/-- Outcome of the auth method: token returned with the updated headers, process
    exit with a code and the error message surfaced to the log (none means only
    the generic failure message was logged), or an uncaught Python exception.
    On exit the headers are carried unchanged. -/
inductive AuthResult where
  | ok : String → List (String × String) → AuthResult
  | exited : Nat → Option String → List (String × String) → AuthResult
  | raised : PyErr → AuthResult

/-- Acos.py lines 59 to 63: on logon failure the code tries to log
    authorization["response"]["err"]["msg"]; that remote message is surfaced only
    when the path exists and holds a string (string concatenation with a non-string
    raises TypeError, caught by the inner except, which logs a generic message). -/
def authFailMsg (authorization : PVal) : Option String :=
  match getPath authorization ["response", "err", "msg"] with
  | Except.ok (PVal.str m) => some m
  | _ => Option.none

/-- Acos.py lines 50 to 68, auth, parameterised by the decoded response of the POST
    to the auth module. The try covers only the subscripting at line 56; a missing
    path leads to exit(1) with the headers untouched. Line 66, outside the try,
    concatenates "A10 " with the token, so a non-string signature raises an uncaught
    TypeError; a string signature is stored in headers["Authorization"] and returned. -/
def auth (headers : List (String × String)) (authorization : PVal) : AuthResult :=
  match getPath authorization ["authresponse", "signature"] with
  | Except.ok (PVal.str tok) =>
      AuthResult.ok tok (setKey headers "Authorization" ("A10 " ++ tok))
  | Except.ok _ => AuthResult.raised PyErr.typeError
  | Except.error _ => AuthResult.exited 1 (authFailMsg authorization) headers

/-- Outcome of a method call at process level: a normal return, process exit, or an
    uncaught exception. -/
inductive ProcResult (α : Type) where
  | ret : α → ProcResult α
  | exited : Nat → ProcResult α
  | raised : PyErr → ProcResult α

/-- Acos.py lines 70 to 79, auth_logoff: stores "A10 " plus the token in the
    Authorization header, then posts to the logoff module inside a try with a bare
    except. A bare except catches BaseException, including the SystemExit raised by
    exit(1) inside axapi_call on transport failure, so every failure is logged and
    the method returns normally. The returned value is the headers state after the
    method. -/
def auth_logoff (decode : String → Option PVal) (base token : String)
    (headers : List (String × String)) (dev : Request → Except TransErr Response) :
    ProcResult (List (String × String)) :=
  let headers2 := setKey headers "Authorization" ("A10 " ++ token)
  match (axapi_call decode base "logoff" "POST" (PVal.str "") dev).1 with
  | CallOutcome.ok _ => ProcResult.ret headers2
  | CallOutcome.sysExit _ => ProcResult.ret headers2
  | CallOutcome.raised _ => ProcResult.ret headers2

/-- Acos.py lines 163 to 168, the loop body of get_partition_list: append
    partition["partition-name"] for each element. The except TypeError sits outside
    the loop, so a TypeError raised mid-iteration stops the loop and keeps the list
    built so far; a KeyError is not caught and propagates. -/
def collectPartitions : List PVal → List PVal → Except PyErr (List PVal)
  | [], acc => Except.ok acc
  | p :: rest, acc =>
      match getItem p "partition-name" with
      | Except.ok v => collectPartitions rest (acc ++ [v])
      | Except.error PyErr.typeError => Except.ok acc
      | Except.error e => Except.error e

/-- Acos.py lines 158 to 169, get_partition_list, parameterised by the decoded
    response of the GET on the partition module. The list starts with the implied
    shared partition; a TypeError from the subscript or from starting the iteration
    is caught and leaves the list as built; a KeyError propagates. -/
def get_partition_list (resp : PVal) : Except PyErr (List PVal) :=
  let partitions := [PVal.str "shared"]
  match getItem resp "partition-list" with
  | Except.error PyErr.typeError => Except.ok partitions
  | Except.error e => Except.error e
  | Except.ok pl =>
      match iterPy pl with
      | Except.error _ => Except.ok partitions
      | Except.ok items => collectPartitions items partitions

/-- The marker searched for at Acos.py line 614, the characters of "DOWN". -/
def downMarker : List Char := ['D', 'O', 'W', 'N']

/-- Python substring containment, needle in hay, on character lists. -/
def strContains (needle : List Char) : List Char → Bool
  | [] => needle.isEmpty
  | c :: t => needle.isPrefixOf (c :: t) || strContains needle t

/-- Acos.py lines 615 to 616: pntr = line.find("/"); take line[pntr + 1 : pntr + 3].
    Python find returns -1 when absent, and the slice then clamps to line[0:2]. -/
def extractReason (line : List Char) : List Char :=
  match line.findIdx? (fun c => c == '/') with
  | some pntr => (line.drop (pntr + 1)).take 2
  | Option.none => line.take 2

/-- Acos.py line 618: re.match with the pattern of one digit succeeds exactly when
    the string is nonempty and its first character is a decimal digit. -/
def startsWithDigit : List Char → Bool
  | [] => false
  | c :: _ => c.isDigit

/-- Acos.py lines 613 to 620 applied to a sequence of iterated items: keep the items
    containing the DOWN marker, extract the two characters after the first slash,
    keep those starting with a digit, and deduplicate as list(set(..)) does. -/
def downReasonsOfLines (lines : List (List Char)) : List (List Char) :=
  let list_of_down_reasons := (lines.filter (fun l => strContains downMarker l)).map extractReason
  let down_reasons := list_of_down_reasons.filter startsWithDigit
  down_reasons.dedup

/-- Acos.py lines 606 to 620, get_hm_down_reasons, parameterised by the text stored
    under the key "command output" of the clideploy result. That value is the raw
    body text (a string), and the Python statement for line in health_stat iterates
    a string character by character, so each iterated item is a one-character
    string. -/
def get_hm_down_reasons (health_stat : List Char) : List (List Char) :=
  downReasonsOfLines (health_stat.map (fun c => [c]))

lemma strContains_down_singleton (c : Char) : strContains downMarker [c] = false := by
  simp [strContains, downMarker, List.isPrefixOf, List.isEmpty]

lemma filter_down_singletons (s : List Char) :
    (s.map (fun c => [c])).filter (fun l => strContains downMarker l) = [] := by
  induction s with
  | nil => rfl
  | cons c t ih => simp [List.filter, strContains_down_singleton, ih]

lemma extractReason_length_le (l : List Char) : (extractReason l).length ≤ 2 := by
  unfold extractReason
  cases h : l.findIdx? (fun c => c == '/') <;> simp [List.length_take]

lemma downReasons_mem {lines : List (List Char)} {x : List Char}
    (hx : x ∈ downReasonsOfLines lines) : x.length ≤ 2 ∧ startsWithDigit x = true := by
  simp only [downReasonsOfLines] at hx
  rw [List.mem_dedup, List.mem_filter] at hx
  obtain ⟨hmem, hdig⟩ := hx
  rw [List.mem_map] at hmem
  obtain ⟨y, _, rfl⟩ := hmem
  exact ⟨extractReason_length_le y, hdig⟩

/-- C1, counterexample. On the clideploy result whose command output text has the
    lines 1/3  DOWN and 2/7  UP, get_hm_down_reasons returns the empty list, not
    the set containing the string 3 that the claim states: the code iterates the
    text character by character, and no single character contains the DOWN marker. -/
theorem c1_counterexample :
    get_hm_down_reasons ("1/3  DOWN\n2/7  UP").data = [] ∧
    ([] : List (List Char)) ≠ [['3']] := by
  constructor
  · rfl
  · decide

/-- C1, amended: for every clideploy result whose command output value is the raw
    text (a string), get_hm_down_reasons returns the empty list, because the for
    statement iterates the string character by character and no one-character line
    contains the marker DOWN. -/
theorem c1_amended (s : List Char) : get_hm_down_reasons s = [] := by
  unfold get_hm_down_reasons downReasonsOfLines
  rw [filter_down_singletons]
  rfl

/-- C10: the list returned by the down-reason extraction contains no duplicates,
    and every element has length at most two and starts with a decimal digit; this
    holds for the per-item processing over any iterated sequence, and in particular
    for get_hm_down_reasons itself, which applies it to the one-character items that
    iterating the command output string yields. -/
theorem c10_down_reason_elements (lines : List (List Char)) (s : List Char) :
    (downReasonsOfLines lines).Nodup ∧
    (∀ x ∈ downReasonsOfLines lines, x.length ≤ 2 ∧ startsWithDigit x = true) ∧
    (get_hm_down_reasons s).Nodup ∧
    (∀ x ∈ get_hm_down_reasons s, x.length ≤ 2 ∧ startsWithDigit x = true) := by
  refine ⟨List.nodup_dedup _, fun x hx => downReasons_mem hx,
          List.nodup_dedup _, fun x hx => downReasons_mem hx⟩

/-- C10, witness: on the single line 1/3  DOWN the extraction yields the element
    made of the digit 3 and a space, which indeed has length two and starts with a
    digit. -/
theorem c10_witness : (['3', ' '].length ≤ 2 ∧ startsWithDigit ['3', ' '] = true) :=
  (c10_down_reason_elements [['1', '/', '3', ' ', ' ', 'D', 'O', 'W', 'N']] []).2.1
    ['3', ' '] (by decide)

lemma lookupKey_setKey {α : Type} (m : List (String × α)) (key : String) (v : α) :
    lookupKey (setKey m key v) key = some v := by
  induction m with
  | nil => simp [setKey, lookupKey]
  | cons p rest ih =>
      obtain ⟨k, w⟩ := p
      by_cases h : k = key
      · subst h; simp [setKey, lookupKey]
      · simp [setKey, lookupKey, h, ih]

/-- C2: when the body fails JSON decoding, the generic request returns the empty
    result for status 200 with empty body, the no-content sentinel for status 204,
    and otherwise the raw body wrapped under the key "command output"; when the
    body decodes, the decoded value is returned; and axapi_call returns exactly
    this decoding of the response it received. -/
theorem c2_decode_policy (decode : String → Option PVal) (status : Nat) (content : String) :
    (decode content = Option.none →
      ((status = 200 ∧ content = "") →
        axapi_decode_body decode status content = PVal.str "") ∧
      (status = 204 → axapi_decode_body decode status content = sentinel204) ∧
      (¬(status = 200 ∧ content = "") → status ≠ 204 →
        axapi_decode_body decode status content =
          PVal.dict [("command output", PVal.str content)])) ∧
    (∀ v, decode content = some v → axapi_decode_body decode status content = v) ∧
    (∀ (dev : Request → Except TransErr Response) (base module : String)
       (payload : PVal) (r : Response),
      dev (axapi_request base module "GET" payload) = Except.ok r →
      axapi_call decode base module "GET" payload dev =
        (CallOutcome.ok (axapi_decode_body decode r.status_code r.content),
         [axapi_request base module "GET" payload])) := by
  refine ⟨?_, ?_, ?_⟩
  · intro hdec
    refine ⟨?_, ?_, ?_⟩
    · intro h
      obtain ⟨h1, h2⟩ := h
      subst h1
      subst h2
      simp [axapi_decode_body, hdec]
    · intro h
      subst h
      simp [axapi_decode_body, hdec]
    · intro h1 h2
      simp [axapi_decode_body, hdec, h1, h2]
  · intro v hv
    simp [axapi_decode_body, hv]
  · intro dev base module payload r hdev
    simp [axapi_call, hdev]

/-- C2, witness: an undecodable body with status 204 yields the sentinel. -/
theorem c2_witness : axapi_decode_body (fun _ => Option.none) 204 "oops" = sentinel204 :=
  ((c2_decode_policy (fun _ => Option.none) 204 "oops").1 rfl).2.1 rfl

/-- C3: for every auth response holding a string token at the nested field
    authresponse then signature, auth stores the token prefixed with A10 as the
    Authorization header value and returns the token; looking the header up
    afterwards yields exactly that value. -/
theorem c3_auth_success (headers : List (String × String)) (resp : PVal) (tok : String)
    (h : getPath resp ["authresponse", "signature"] = Except.ok (PVal.str tok)) :
    auth headers resp = AuthResult.ok tok (setKey headers "Authorization" ("A10 " ++ tok)) ∧
    lookupKey (setKey headers "Authorization" ("A10 " ++ tok)) "Authorization" =
      some ("A10 " ++ tok) := by
  constructor
  · simp [auth, h]
  · exact lookupKey_setKey headers "Authorization" ("A10 " ++ tok)

/-- C3, witness: a concrete well-formed auth response. -/
theorem c3_witness :
    auth [("content-type", "application/json")]
        (PVal.dict [("authresponse", PVal.dict [("signature", PVal.str "tokX")])]) =
      AuthResult.ok "tokX"
        [("content-type", "application/json"), ("Authorization", "A10 tokX")] ∧
    lookupKey [("content-type", "application/json"), ("Authorization", "A10 tokX")]
        "Authorization" = some ("A10 tokX") :=
  c3_auth_success [("content-type", "application/json")]
    (PVal.dict [("authresponse", PVal.dict [("signature", PVal.str "tokX")])]) "tokX" rfl

/-- C4: for every auth response missing the token field, auth exits the process
    with status one, leaves the headers exactly as they were (so no Authorization
    credential is set), and surfaces the remote message precisely when the response
    holds a string at the field response then err then msg; there is no retry, the
    single evaluation ends in the exit. -/
theorem c4_auth_failure (headers : List (String × String)) (resp : PVal) (e : PyErr)
    (h : getPath resp ["authresponse", "signature"] = Except.error e) :
    auth headers resp = AuthResult.exited 1 (authFailMsg resp) headers ∧
    (∀ m, getPath resp ["response", "err", "msg"] = Except.ok (PVal.str m) →
      authFailMsg resp = some m) := by
  constructor
  · simp [auth, h]
  · intro m hm
    simp [authFailMsg, hm]

/-- C4, witness: a concrete auth response carrying only a remote error message. -/
theorem c4_witness :
    auth [("content-type", "application/json")]
        (PVal.dict
          [("response", PVal.dict [("err", PVal.dict [("msg", PVal.str "bad creds")])])]) =
      AuthResult.exited 1 (some "bad creds") [("content-type", "application/json")] :=
  (c4_auth_failure [("content-type", "application/json")]
    (PVal.dict
      [("response", PVal.dict [("err", PVal.dict [("msg", PVal.str "bad creds")])])])
    PyErr.keyError rfl).1

/-- A well-formed partition response: a dict binding the key partition-list to the
    list of one dict per partition, each binding partition-name to the name. -/
def mkPartitionResp (names : List String) : PVal :=
  PVal.dict [("partition-list",
    PVal.list (names.map (fun n => PVal.dict [("partition-name", PVal.str n)])))]

lemma collectPartitions_map (names : List String) (acc : List PVal) :
    collectPartitions (names.map (fun n => PVal.dict [("partition-name", PVal.str n)])) acc =
      Except.ok (acc ++ names.map PVal.str) := by
  induction names generalizing acc with
  | nil => simp [collectPartitions]
  | cons n rest ih => simp [collectPartitions, getItem, lookupKey, ih]

/-- C5: get_partition_list answers the implied shared partition alone whenever the
    response makes the subscript raise TypeError or the partition-list value is not
    iterable, answers shared then P1 then P2 on a response listing partitions P1 and
    P2, and in general prepends shared and appends every partition name of a
    well-formed response in response order. -/
theorem c5_partition_list :
    (∀ resp : PVal, getItem resp "partition-list" = Except.error PyErr.typeError →
      get_partition_list resp = Except.ok [PVal.str "shared"]) ∧
    (∀ v : PVal, iterPy v = Except.error PyErr.typeError →
      get_partition_list (PVal.dict [("partition-list", v)]) =
        Except.ok [PVal.str "shared"]) ∧
    get_partition_list (mkPartitionResp ["P1", "P2"]) =
      Except.ok [PVal.str "shared", PVal.str "P1", PVal.str "P2"] ∧
    (∀ names : List String, get_partition_list (mkPartitionResp names) =
      Except.ok (PVal.str "shared" :: names.map PVal.str)) := by
  have hgeneral : ∀ names : List String, get_partition_list (mkPartitionResp names) =
      Except.ok (PVal.str "shared" :: names.map PVal.str) := by
    intro names
    simp [get_partition_list, mkPartitionResp, getItem, lookupKey, iterPy,
      collectPartitions_map]
  refine ⟨?_, ?_, ?_, hgeneral⟩
  · intro resp h
    simp [get_partition_list, h]
  · intro v h
    simp [get_partition_list, getItem, lookupKey, h]
  · exact hgeneral ["P1", "P2"]

/-- C5, witness: on a response that is a plain string the subscript raises
    TypeError, and only the shared partition is returned. -/
theorem c5_witness : get_partition_list (PVal.str "") = Except.ok [PVal.str "shared"] :=
  c5_partition_list.1 (PVal.str "") rfl

lemma auth_logoff_returns (decode : String → Option PVal) (base token : String)
    (headers : List (String × String)) (dev : Request → Except TransErr Response) :
    auth_logoff decode base token headers dev =
      ProcResult.ret (setKey headers "Authorization" ("A10 " ++ token)) := by
  cases hc : (axapi_call decode base "logoff" "POST" (PVal.str "") dev).1 <;>
    simp [auth_logoff, hc]

/-- C6: auth_logoff never raises and never aborts the process: for every transport
    behaviour of the device, including a connection error (which makes axapi_call
    call exit(1), whose SystemExit the bare except of auth_logoff catches), the
    failure is only logged and the method returns normally. -/
theorem c6_logoff_never_aborts (decode : String → Option PVal) (base token : String)
    (headers : List (String × String)) (dev : Request → Except TransErr Response) :
    auth_logoff decode base token headers dev =
      ProcResult.ret (setKey headers "Authorization" ("A10 " ++ token)) :=
  auth_logoff_returns decode base token headers dev

/-- C7: for every GET or POST whose transport fails, with a connection error or any
    other sending exception, axapi_call ends in exit(1), returning no value to the
    caller, and the request trace shows the single attempt, so no retry. -/
theorem c7_transport_failure_fatal (decode : String → Option PVal)
    (base module method : String) (payload : PVal)
    (dev : Request → Except TransErr Response) (e : TransErr)
    (hm : method = "GET" ∨ method = "POST")
    (hdev : dev (axapi_request base module method payload) = Except.error e) :
    axapi_call decode base module method payload dev =
      (CallOutcome.sysExit 1, [axapi_request base module method payload]) := by
  rcases hm with h | h <;> subst h <;> simp [axapi_call, hdev]

/-- C7, witness: a concrete GET against an unreachable device. -/
theorem c7_witness :
    axapi_call (fun _ => Option.none) "https://dev/axapi/v3/" "test" "GET" PVal.null
        (fun _ => Except.error TransErr.connectionError) =
      (CallOutcome.sysExit 1,
       [axapi_request "https://dev/axapi/v3/" "test" "GET" PVal.null]) :=
  c7_transport_failure_fatal (fun _ => Option.none) "https://dev/axapi/v3/" "test" "GET"
    PVal.null (fun _ => Except.error TransErr.connectionError) TransErr.connectionError
    (Or.inl rfl) rfl

lemma axapi_call_post_trace (decode : String → Option PVal) (base module : String)
    (payload : PVal) (dev : Request → Except TransErr Response) :
    (axapi_call decode base module "POST" payload dev).2 =
      [axapi_request base module "POST" payload] := by
  cases hc : dev (axapi_request base module "POST" payload) <;> simp [axapi_call, hc]

/-- C8: for every command list, clideploy is exactly one POST to the clideploy path
    with body the dict binding CommandList to the list, and it returns the result of
    that single generic call unchanged. -/
theorem c8_clideploy_single_post (decode : String → Option PVal) (base : String)
    (commands : List String) (dev : Request → Except TransErr Response) :
    clideploy decode base commands dev =
      axapi_call decode base "clideploy" "POST"
        (PVal.dict [("CommandList", PVal.list (commands.map PVal.str))]) dev ∧
    (clideploy decode base commands dev).2 =
      [{ url := base ++ "clideploy", method := "POST",
         body := some (PVal.dict [("CommandList", PVal.list (commands.map PVal.str))]) }] := by
  constructor
  · rfl
  · exact axapi_call_post_trace decode base "clideploy"
      (PVal.dict [("CommandList", PVal.list (commands.map PVal.str))]) dev

/-- C9, counterexample: after auth_logoff returns, on a concrete session whose
    headers held no Authorization entry, the headers now hold the entry with value
    A10 tok, so the client still holds the credential; the claim that the stored
    token is cleared is false, even when the logoff transport fails. -/
theorem c9_counterexample :
    auth_logoff (fun _ => Option.none) "https://device/axapi/v3/" "tok"
        [("content-type", "application/json")]
        (fun _ => Except.error TransErr.connectionError) =
      ProcResult.ret [("content-type", "application/json"), ("Authorization", "A10 tok")] ∧
    lookupKey [("content-type", "application/json"), ("Authorization", "A10 tok")]
        "Authorization" ≠ Option.none := by
  constructor
  · rfl
  · simp [lookupKey]

/-- C9, amended: after auth_logoff returns, the Authorization header still holds
    A10 followed by the token: auth_logoff writes the header at entry and never
    clears it, so the client keeps the credential; only the server-side session is
    the target of the logoff request. -/
theorem c9_amended (decode : String → Option PVal) (base token : String)
    (headers : List (String × String)) (dev : Request → Except TransErr Response) :
    auth_logoff decode base token headers dev =
      ProcResult.ret (setKey headers "Authorization" ("A10 " ++ token)) ∧
    lookupKey (setKey headers "Authorization" ("A10 " ++ token)) "Authorization" =
      some ("A10 " ++ token) :=
  ⟨auth_logoff_returns decode base token headers dev,
   lookupKey_setKey headers "Authorization" ("A10 " ++ token)⟩
